import Mathlib

/-!
Verification of the Select dropdown widget contract described by the
repository spec and exercised by
`src/packages/frontend-shared/src/components/Select.cy.tsx`.

The component implementation (`Select.vue`) is not part of the source
tree; only its test suite is. The widget's state machine and rendering
are therefore modelled from the spec (sections 3-6), faithful to its
words, and checked against the behaviour the test suite pins down.
-/

namespace SelectWidget

/-- An option record: a JSON-like tree of string leaves and field maps,
as used by the test fixtures (flat `\x7b value, key \x7d` records and
nested `\x7b profile: \x7b firstName \x7d, id \x7d` records). -/
inductive Val where
  | str (s : String)
  | obj (fields : List (String × Val))

/-- Look a field name up in a record's field list (first match wins). -/
def lookupField : List (String × Val) → String → Option Val
  | [], _ => none
  | (k, v) :: rest, name => if k = name then some v else lookupField rest name

/-- Resolve a field path (a list of field names) against a record,
returning `none` when the path does not exist. -/
def resolve : Val → List String → Option Val
  | v, [] => some v
  | .str _, _ :: _ => none
  | .obj fs, name :: rest =>
    match lookupField fs name with
    | some v => resolve v rest
    | none => none

/-- Split a character list into the segments between `.` separators. -/
def splitPathAux : List Char → List Char → List String
  | [], acc => [String.mk acc.reverse]
  | c :: rest, acc =>
    if c = ('.') then String.mk acc.reverse :: splitPathAux rest []
    else splitPathAux rest (c :: acc)

/-- Split a dotted accessor path such as `"profile.firstName"` into its
field names. -/
def splitPath (p : String) : List String :=
  splitPathAux p.data []

/-- Modelled from the spec: the default placeholder string drawn from the
i18n message catalog (`defaultMessages.components.select.placeholder`);
the catalog itself is external to the repository. -/
def defaultPlaceholder : String :=
  "Choose a value"

/-- Modelled from the spec: the two named extension points whose
caller-supplied replacement content suppresses a default icon — the
input surface's trailing caret and the option row's leading check mark.
`none` means no override was supplied, so the default icon is used. -/
structure Slots where
  caretSlot : Option String := none
  checkSlot : Option String := none

/-- Modelled from the spec: the public configuration surface (props) of
the Select widget — option list, key/value accessors (defaulting to the
option's own `key`/`value` fields), optional placeholder, and the
extension points. -/
structure Config where
  options : List Val
  itemKey : String := "key"
  itemValue : String := "value"
  placeholder : Option String := none
  slots : Slots := {}

/-- Modelled from the spec: the widget state
`\x7b isOpen : boolean, selected : Option | absent \x7d`, together with
its immutable configuration. -/
structure State where
  cfg : Config
  selected : Option Val := none
  isOpen : Bool := false

/-- Extract an option's display value via the configured (possibly
nested) value accessor; a malformed path degrades to the empty string. -/
def displayValueOf (cfg : Config) (o : Val) : String :=
  match resolve o (splitPath cfg.itemValue) with
  | some (.str t) => t
  | _ => ""

/-- Extract an option's unique key via the configured key accessor; a
malformed path degrades to the empty string. -/
def keyTextOf (cfg : Config) (o : Val) : String :=
  match resolve o (splitPath cfg.itemKey) with
  | some (.str t) => t
  | _ => ""

/-- Modelled from the spec: `open()` — triggered by activating the input
control; guarded, ignored if already open. -/
def openSel (s : State) : State :=
  if s.isOpen then s else { s with isOpen := true }

/-- Modelled from the spec: `close()` — hides the option list. -/
def close (s : State) : State :=
  { s with isOpen := false }

/-- Modelled from the spec: the first half of `choose(option)` — set
`selected` to the picked option (the widget owns this state and mutates
it only here). -/
def applySelection (s : State) (o : Val) : State :=
  { s with selected := some o }

/-- Observable events during a `choose`: the change notification
carrying the new value, and the list being hidden. -/
inductive Ev where
  | changed (o : Val)
  | closedList

/-- Modelled from the spec: the micro-step trace of `choose(option)` —
each event paired with the widget state at the moment the event is
observable. The selection is applied and notified first; only then does
`close()` hide the list. -/
def chooseSteps (s : State) (o : Val) : List (Ev × State) :=
  let s1 := applySelection s o
  [(Ev.changed o, s1), (Ev.closedList, close s1)]

/-- Modelled from the spec: `choose(option)` — sets `selected`, emits the
change notification, then closes. -/
def choose (s : State) (o : Val) : State :=
  close (applySelection s o)

/-- Clicking the input control activates it, which triggers `open()`. -/
def clickInput (s : State) : State :=
  openSel s

/-- Clicking outside the widget's bounding region triggers `close()`. -/
def clickOutside (s : State) : State :=
  close s

/-- The option rows currently rendered: one per option, in the list's
insertion order, when open; none when closed. -/
def renderedRows (s : State) : List Val :=
  if s.isOpen then s.cfg.options else []

/-- Modelled from the spec: the placeholder text shown on the input
surface — the caller-supplied string if provided, else the default
catalog string, and only while `selected` is absent. -/
def shownPlaceholder (s : State) : Option String :=
  match s.selected with
  | some _ => none
  | none =>
    match s.cfg.placeholder with
    | some p => some p
    | none => some defaultPlaceholder

/-- Modelled from the spec: the input surface's displayed text — the
display value of `selected` when present, otherwise the placeholder. -/
def inputText (s : State) : String :=
  match s.selected with
  | some o => displayValueOf s.cfg o
  | none =>
    match shownPlaceholder s with
    | some p => p
    | none => ""

/-- Whether the default trailing caret icon renders on the input
surface: only when its extension point is not overridden. -/
def caretRendered (s : State) : Bool :=
  s.cfg.slots.caretSlot.isNone

/-- Whether the default leading check-mark icon renders on the row for
option `o`: only when its extension point is not overridden, the list is
open, and the row's key matches the selected option's key. -/
def checkRendered (s : State) (o : Val) : Bool :=
  s.cfg.slots.checkSlot.isNone && s.isOpen &&
    (match s.selected with
     | some sel => keyTextOf s.cfg o == keyTextOf s.cfg sel
     | none => false)

/-- Modelled from the spec: the widget together with its owner — the
externally bound model value and whether the owner wired a handler that
writes the emitted value back into that model. -/
structure Harness where
  widget : State
  ownerModel : Option Val
  handlerWired : Bool

/-- Modelled from the spec: a user choosing an option inside the
harness. The widget applies the selection itself; the owner's bound
model only changes when a model-update handler is wired. -/
def harnessChoose (h : Harness) (o : Val) : Harness :=
  { widget := choose h.widget o
    ownerModel := if h.handlerWired then some o else h.ownerModel
    handlerWired := h.handlerWired }

/-- A flat option record as in the test fixture `defaultOptions`. -/
def mkOpt (v k : String) : Val :=
  .obj [("value", .str v), ("key", .str k)]

/-- The test suite's `defaultOptions` fixture. -/
def defaultOptions : List Val :=
  [mkOpt ("Blue") ("blue"), mkOpt ("Orange") ("orange"),
   mkOpt ("Fuchsia") ("fuchsia")]

/-- The test suite's `nestedOptions` fixture. -/
def nestedOptions : List Val :=
  [.obj [("profile", .obj [("firstName", .str ("Lachlan"))]), ("id", .str ("ewiofjdew"))],
   .obj [("profile", .obj [("firstName", .str ("Jess"))]), ("id", .str ("1i24u"))],
   .obj [("profile", .obj [("firstName", .str ("Bart"))]), ("id", .str ("ewopf"))]]

/-- The default configuration used by the test's `mountSelect`. -/
def defaultCfg : Config :=
  { options := defaultOptions }

/-- The widget as mounted by `mountSelect` (bound value is the first
default option) and then opened by `openSelect`. -/
def openedDefault : State :=
  { cfg := defaultCfg, selected := some (mkOpt ("Blue") ("blue")), isOpen := true }

/-- A mounted widget with a custom placeholder and no selected value. -/
def customPlaceholderState : State :=
  { cfg := { options := defaultOptions, placeholder := some ("My placeholder") } }

/-- A mounted widget with no placeholder override and no selected value. -/
def noValueState : State :=
  { cfg := defaultCfg }

/-- A mounted widget with a placeholder supplied and a value selected. -/
def selectedWithPlaceholder : State :=
  { cfg := { options := defaultOptions, placeholder := some ("A placeholder") }
    selected := some (mkOpt ("Blue") ("blue")) }

/-- A widget whose caret extension point alone is overridden. -/
def caretOnlyState : State :=
  { cfg := { options := defaultOptions
             slots := { caretSlot := some ("input-suffix content") } } }

/-- A widget whose check-mark extension point alone is overridden. -/
def checkOnlyState : State :=
  { cfg := { options := defaultOptions
             slots := { checkSlot := some ("item-prefix content") } } }

/-- The configuration of the nested-accessor test (`#items`). -/
def nestedCfg : Config :=
  { options := nestedOptions, itemKey := "id", itemValue := "profile.firstName" }

/-- The first nested option record of the `#items` test. -/
def nestedFirst : Val :=
  .obj [("profile", .obj [("firstName", .str ("Lachlan"))]), ("id", .str ("ewiofjdew"))]

/-- The harness of the test `can open and choose an option`: no
model-update handler is wired, the owner's bound model stays at the
first option. -/
def unwiredHarness : Harness :=
  { widget := openedDefault
    ownerModel := some (mkOpt ("Blue") ("blue"))
    handlerWired := false }

/-- `openSel` never changes the configuration. -/
lemma openSel_cfg (s : State) : (openSel s).cfg = s.cfg := by
  unfold openSel
  split <;> rfl

/-- `openSel` never changes the selection. -/
lemma openSel_selected (s : State) : (openSel s).selected = s.selected := by
  unfold openSel
  split <;> rfl

/-- C1: clicking any rendered option sets `selected` to that option,
closes the list (no option rows remain rendered), and the input
surface's displayed text equals that option's extracted display
value. -/
theorem c1_choose_sets_selection_closes_and_displays (s : State) (o : Val)
    (ho : o ∈ renderedRows s) :
    (choose s o).selected = some o ∧
    renderedRows (choose s o) = [] ∧
    inputText (choose s o) = displayValueOf s.cfg o := by
  refine ⟨rfl, ?_, rfl⟩
  simp [renderedRows, choose, close]

/-- Witness for C1 at the opened default widget and its first option. -/
theorem c1_witness :
    (mkOpt ("Blue") ("blue")) ∈ renderedRows openedDefault ∧
    ((choose openedDefault (mkOpt ("Blue") ("blue"))).selected
        = some (mkOpt ("Blue") ("blue")) ∧
      renderedRows (choose openedDefault (mkOpt ("Blue") ("blue"))) = [] ∧
      inputText (choose openedDefault (mkOpt ("Blue") ("blue")))
        = displayValueOf openedDefault.cfg (mkOpt ("Blue") ("blue"))) := by
  have hm : (mkOpt ("Blue") ("blue")) ∈ renderedRows openedDefault := by
    simp [renderedRows, openedDefault, defaultCfg, defaultOptions]
  exact ⟨hm, c1_choose_sets_selection_closes_and_displays openedDefault _ hm⟩

/-- C2: for every non-empty option list, activating (clicking) the input
control puts the widget in the open state and renders exactly one option
row per option, in the list's insertion order. -/
theorem c2_click_input_opens_and_renders_all_rows (s : State)
    (hne : s.cfg.options ≠ []) :
    (clickInput s).isOpen = true ∧
    renderedRows (clickInput s) = s.cfg.options := by
  unfold clickInput openSel renderedRows
  by_cases h : s.isOpen <;> simp [h]

/-- Witness for C2 at the freshly mounted default widget. -/
theorem c2_witness :
    defaultCfg.options ≠ [] ∧
    ((clickInput noValueState).isOpen = true ∧
      renderedRows (clickInput noValueState) = noValueState.cfg.options) := by
  have hne : noValueState.cfg.options ≠ [] := by
    simp [noValueState, defaultCfg, defaultOptions]
  exact ⟨hne, c2_click_input_opens_and_renders_all_rows noValueState hne⟩

/-- C3: clicking outside the widget while it is open closes the option
list and leaves the selected value unchanged. -/
theorem c3_click_outside_closes_without_changing_selection (s : State)
    (h : s.isOpen = true) :
    renderedRows (clickOutside s) = [] ∧
    (clickOutside s).selected = s.selected := by
  exact ⟨by simp [renderedRows, clickOutside, close], rfl⟩

/-- Witness for C3 at the opened default widget. -/
theorem c3_witness :
    openedDefault.isOpen = true ∧
    (renderedRows (clickOutside openedDefault) = [] ∧
      (clickOutside openedDefault).selected = openedDefault.selected) :=
  ⟨rfl, c3_click_outside_closes_without_changing_selection openedDefault rfl⟩

/-- C4: when no value is selected, the input surface shows the
caller-supplied placeholder if one was provided and otherwise the
default catalog string; when a value is selected, no placeholder text is
shown. -/
theorem c4_placeholder_shown_iff_unselected (s : State) :
    (∀ p, s.selected = none → s.cfg.placeholder = some p →
      shownPlaceholder s = some p ∧ inputText s = p) ∧
    (s.selected = none → s.cfg.placeholder = none →
      shownPlaceholder s = some defaultPlaceholder ∧
        inputText s = defaultPlaceholder) ∧
    (∀ o, s.selected = some o → shownPlaceholder s = none) := by
  refine ⟨?_, ?_, ?_⟩
  · intro p hsel hp
    simp [shownPlaceholder, inputText, hsel, hp]
  · intro hsel hp
    simp [shownPlaceholder, inputText, hsel, hp]
  · intro o hsel
    simp [shownPlaceholder, hsel]

/-- Witness for C4 at the three placeholder test states. -/
theorem c4_witness :
    (shownPlaceholder customPlaceholderState = some ("My placeholder") ∧
      inputText customPlaceholderState = ("My placeholder")) ∧
    (shownPlaceholder noValueState = some defaultPlaceholder ∧
      inputText noValueState = defaultPlaceholder) ∧
    shownPlaceholder selectedWithPlaceholder = none :=
  ⟨(c4_placeholder_shown_iff_unselected customPlaceholderState).1 _ rfl rfl,
   (c4_placeholder_shown_iff_unselected noValueState).2.1 rfl rfl,
   (c4_placeholder_shown_iff_unselected selectedWithPlaceholder).2.2 _ rfl⟩

/-- C5: overriding an extension point with replacement content
individually suppresses the corresponding default icon — the caret
override alone suppresses the caret, the check override alone suppresses
the check mark — in the current state, and still after opening, choosing
an option and reopening. -/
theorem c5_overridden_slots_suppress_default_icons (s : State) :
    (s.cfg.slots.caretSlot.isSome = true →
      caretRendered s = false ∧
      ∀ o, caretRendered (openSel (choose (openSel s) o)) = false) ∧
    (s.cfg.slots.checkSlot.isSome = true →
      ∀ o o2, checkRendered s o2 = false ∧
        checkRendered (openSel (choose (openSel s) o)) o2 = false) := by
  have hcfg : ∀ o, (openSel (choose (openSel s) o)).cfg = s.cfg := by
    intro o
    rw [openSel_cfg]
    rw [show (choose (openSel s) o).cfg = (openSel s).cfg from rfl, openSel_cfg]
  constructor
  · intro hc
    obtain ⟨c, hcc⟩ := Option.isSome_iff_exists.mp hc
    constructor
    · simp [caretRendered, hcc]
    · intro o
      simp [caretRendered, hcfg o, hcc]
  · intro hk o o2
    obtain ⟨k, hkk⟩ := Option.isSome_iff_exists.mp hk
    constructor
    · simp [checkRendered, hkk]
    · simp [checkRendered, hcfg o, hkk]

/-- Witness for C5 at the two single-override widgets: only the caret
slot overridden, and only the check slot overridden. -/
theorem c5_witness :
    caretOnlyState.cfg.slots.caretSlot.isSome = true ∧
    (caretRendered caretOnlyState = false ∧
      caretRendered
        (openSel (choose (openSel caretOnlyState) (mkOpt ("Blue") ("blue"))))
        = false) ∧
    checkOnlyState.cfg.slots.checkSlot.isSome = true ∧
    (checkRendered checkOnlyState (mkOpt ("Blue") ("blue")) = false ∧
      checkRendered
        (openSel (choose (openSel checkOnlyState) (mkOpt ("Blue") ("blue"))))
        (mkOpt ("Blue") ("blue")) = false) := by
  have h1 := (c5_overridden_slots_suppress_default_icons caretOnlyState).1 rfl
  have h2 := (c5_overridden_slots_suppress_default_icons checkOnlyState).2 rfl
    (mkOpt ("Blue") ("blue")) (mkOpt ("Blue") ("blue"))
  exact ⟨rfl, ⟨h1.1, h1.2 _⟩, rfl, h2⟩

/-- C6: with a nested value accessor configured (`profile.firstName`),
each option row's rendered text is the nested field's value, and with
`id` as key accessor the option's unique key is its `id` field. -/
theorem c6_nested_accessors_extract_nested_fields (cfg : Config) (o : Val)
    (v k : String)
    (hval : cfg.itemValue = ("profile.firstName"))
    (hkey : cfg.itemKey = ("id"))
    (hres : resolve o [("profile"), ("firstName")] = some (.str v))
    (hid : resolve o [("id")] = some (.str k)) :
    displayValueOf cfg o = v ∧ keyTextOf cfg o = k := by
  have hsplitv : splitPath ("profile.firstName") = [("profile"), ("firstName")] := by
    decide
  have hsplitk : splitPath ("id") = [("id")] := by
    decide
  constructor
  · rw [displayValueOf, hval, hsplitv, hres]
  · rw [keyTextOf, hkey, hsplitk, hid]

/-- Witness for C6 at the first record of the nested-options fixture. -/
theorem c6_witness :
    resolve nestedFirst [("profile"), ("firstName")]
        = some (.str ("Lachlan")) ∧
    resolve nestedFirst [("id")] = some (.str ("ewiofjdew")) ∧
    (displayValueOf nestedCfg nestedFirst = ("Lachlan") ∧
      keyTextOf nestedCfg nestedFirst = ("ewiofjdew")) :=
  ⟨rfl, rfl,
   c6_nested_accessors_extract_nested_fields nestedCfg nestedFirst _ _
     rfl rfl rfl rfl⟩

/-- C7: with no extension-point overrides, the input surface renders the
trailing caret icon by default in every state (in particular the freshly
mounted closed widget), and while open the option row whose key matches
the selected option renders the leading check-mark icon. -/
theorem c7_default_icons_render (s : State) (o sel : Val)
    (hslots : s.cfg.slots = {}) :
    caretRendered s = true ∧
    (s.isOpen = true → s.selected = some sel →
      keyTextOf s.cfg o = keyTextOf s.cfg sel →
      checkRendered s o = true) := by
  constructor
  · simp [caretRendered, hslots]
  · intro hopen hsel hmatch
    simp [checkRendered, hslots, hopen, hsel, hmatch]

/-- Witness for C7: the caret at the freshly mounted closed widget, the
check mark at the opened widget on its selected option's own row. -/
theorem c7_witness :
    noValueState.cfg.slots = {} ∧
    caretRendered noValueState = true ∧
    openedDefault.isOpen = true ∧
    openedDefault.selected = some (mkOpt ("Blue") ("blue")) ∧
    checkRendered openedDefault (mkOpt ("Blue") ("blue")) = true :=
  ⟨rfl,
   (c7_default_icons_render noValueState (mkOpt ("Blue") ("blue"))
     (mkOpt ("Blue") ("blue")) rfl).1,
   rfl, rfl,
   (c7_default_icons_render openedDefault (mkOpt ("Blue") ("blue"))
     (mkOpt ("Blue") ("blue")) rfl).2 rfl rfl rfl⟩

/-- C8: in every execution of `choose`, the change notification carrying
the new value is emitted while the selection is already applied and the
option list is still rendered; only the later `closedList` step hides
the rows — never the reverse order. -/
theorem c8_selection_applied_before_close (s : State) (o : Val)
    (hopen : s.isOpen = true) :
    ∃ s1 s2,
      chooseSteps s o = [(Ev.changed o, s1), (Ev.closedList, s2)] ∧
      s1.selected = some o ∧
      renderedRows s1 = s.cfg.options ∧
      renderedRows s2 = [] := by
  refine ⟨applySelection s o, close (applySelection s o), rfl, rfl, ?_, ?_⟩
  · simp [renderedRows, applySelection, hopen]
  · simp [renderedRows, close]

/-- Witness for C8 at the opened default widget choosing its first
option. -/
theorem c8_witness :
    openedDefault.isOpen = true ∧
    ∃ s1 s2,
      chooseSteps openedDefault (mkOpt ("Blue") ("blue"))
          = [(Ev.changed (mkOpt ("Blue") ("blue")), s1), (Ev.closedList, s2)] ∧
      s1.selected = some (mkOpt ("Blue") ("blue")) ∧
      renderedRows s1 = openedDefault.cfg.options ∧
      renderedRows s2 = [] :=
  ⟨rfl, c8_selection_applied_before_close openedDefault _ rfl⟩

/-- C9: activating the input control while the widget is already open
leaves the state unchanged, so opening is idempotent on the open
state. -/
theorem c9_open_guarded_idempotent (s : State) (h : s.isOpen = true) :
    clickInput s = s ∧ clickInput (clickInput s) = clickInput s := by
  constructor
  · simp [clickInput, openSel, h]
  · simp [clickInput, openSel, h]

/-- Witness for C9 at the opened default widget. -/
theorem c9_witness :
    openedDefault.isOpen = true ∧
    (clickInput openedDefault = openedDefault ∧
      clickInput (clickInput openedDefault) = clickInput openedDefault) :=
  ⟨rfl, c9_open_guarded_idempotent openedDefault rfl⟩

/-- C10: after the user chooses an option, the input surface displays
that option's extracted display value even when no model-update handler
is wired, and the owner's bound model is unchanged. -/
theorem c10_display_updates_without_wired_handler (h : Harness) (o : Val)
    (hw : h.handlerWired = false) :
    inputText (harnessChoose h o).widget = displayValueOf h.widget.cfg o ∧
    (harnessChoose h o).ownerModel = h.ownerModel := by
  constructor
  · rfl
  · simp [harnessChoose, hw]

/-- Witness for C10 at the unwired harness choosing the second option:
the input surface shows `Orange` while the owner's model still holds the
first option. -/
theorem c10_witness :
    unwiredHarness.handlerWired = false ∧
    inputText (harnessChoose unwiredHarness (mkOpt ("Orange") ("orange"))).widget
      = ("Orange") ∧
    (harnessChoose unwiredHarness (mkOpt ("Orange") ("orange"))).ownerModel
      = some (mkOpt ("Blue") ("blue")) := by
  have h := c10_display_updates_without_wired_handler unwiredHarness
    (mkOpt ("Orange") ("orange")) rfl
  refine ⟨rfl, h.1.trans ?_, h.2.trans rfl⟩
  decide

end SelectWidget
